import Mathlib

/-!
Shallow embedding of `outgoing-webhook-complete/examples/receiver-python.py`:
a Flask webhook receiver with an HMAC-SHA256 signature verifier
(`verify_webhook_signature`) and a dispatcher endpoint (`webhook`).

Modelling conventions:
* Python `dict` values produced by `json.loads` are modelled by the inductive
  `Json`; `request.json` is an external library call, so a request carries its
  result as `Except String Json` (the error is the `str()` of the exception the
  parse would raise).
* `request.data.decode('utf-8')` can raise `UnicodeDecodeError`; a request
  carries its result as `Except Unit String`.
* `hmac.new(key, msg, sha256).hexdigest()` is an external library call and is a
  function parameter `hmacHex : String → String → String` (key, message ↦ hex
  digest); `int(time.time())` is the injected parameter `now`.
* `print(...)` calls are collected as a `List String` of log lines, one entry
  per `print`, keeping the exact argument strings (f-strings become string
  concatenations; `\x27` below is the ASCII single-quote character).
* Machine-level timing is outside the embedding, so `hmac.compare_digest` on
  ASCII strings is modelled by string equality.
-/

/-- A JSON value as produced by Python `json.loads` (object fields keep source
order; duplicate keys are resolved last-wins by `dictGet`, matching
`json.loads`). -/
inductive Json where
  | null
  | bool (b : Bool)
  | num (n : Int)
  | str (s : String)
  | arr (elems : List Json)
  | obj (fields : List (String × Json))

/-- Python `type(x).__name__` for a parsed JSON value, as it appears in
`AttributeError` messages. -/
def pyTypeName : Json → String
  | Json.null => "NoneType"
  | Json.bool _ => "bool"
  | Json.num _ => "int"
  | Json.str _ => "str"
  | Json.arr _ => "list"
  | Json.obj _ => "dict"

/-- Python `dict.get k` on the field list of a parsed JSON object
(last occurrence wins, matching `json.loads` duplicate-key behaviour). -/
def dictGet (fields : List (String × Json)) (k : String) : Option Json :=
  fields.foldl (fun acc kv => if kv.1 == k then some kv.2 else acc) none

/-- Whether a JSON value is an object (a Python `dict`, the only parse result
with a `.get` attribute). -/
def Json.isObj : Json → Bool
  | Json.obj _ => true
  | _ => false

/-- Python `event.get(k) == lit` for a string literal `lit`: true exactly when
the field is present and is the string `lit` (Python `==` between a string and
`None`, a number, a bool, a list or a dict is `False`). -/
def optJsonEqStr : Option Json → String → Bool
  | some (Json.str s), t => s == t
  | _, _ => false

/-- `jsonify` argument conversion: Python `None` serialises as JSON `null`. -/
def optToJson : Option Json → Json
  | none => Json.null
  | some j => j

mutual
/-- Python `repr` of a parsed JSON value (string escaping inside `repr` is not
modelled beyond quoting; `\x27` is the single-quote character). -/
def pyRepr : Json → String
  | Json.null => "None"
  | Json.bool true => "True"
  | Json.bool false => "False"
  | Json.num n => toString n
  | Json.str s => "\x27" ++ s ++ "\x27"
  | Json.arr xs => "[" ++ pyReprElems xs ++ "]"
  | Json.obj fs => "\x7b" ++ pyReprFields fs ++ "\x7d"

/-- Comma-separated `repr`s of list elements. -/
def pyReprElems : List Json → String
  | [] => ""
  | [j] => pyRepr j
  | j :: j2 :: rest => pyRepr j ++ ", " ++ pyReprElems (j2 :: rest)

/-- Comma-separated `repr`s of dict entries. -/
def pyReprFields : List (String × Json) → String
  | [] => ""
  | [kv] => "\x27" ++ kv.1 ++ "\x27: " ++ pyRepr kv.2
  | kv :: kv2 :: rest =>
      "\x27" ++ kv.1 ++ "\x27: " ++ pyRepr kv.2 ++ ", " ++ pyReprFields (kv2 :: rest)
end

/-- Python `str` of a parsed JSON value (`str` and `repr` agree except on
top-level strings, which `str` returns verbatim). -/
def pyStr : Json → String
  | Json.str s => s
  | j => pyRepr j

/-- Python `str(event.get(k))` as used inside the handler's f-strings
(`str(None) = "None"`). -/
def pyStrOpt : Option Json → String
  | none => "None"
  | some j => pyStr j

/-- Python `str` of an optional header value (`None` prints as `"None"`). -/
def pyOptStr : Option String → String
  | none => "None"
  | some s => s

/-- Numeric value of a run of ASCII digits. -/
def digitsVal (cs : List Char) : Nat :=
  cs.foldl (fun a c => 10 * a + (c.toNat - 48)) 0

/-- Strip leading and trailing whitespace from a character list. -/
def trimChars (cs : List Char) : List Char :=
  ((cs.dropWhile Char.isWhitespace).reverse.dropWhile Char.isWhitespace).reverse

/-- Python `int(s)` on a string: optional surrounding whitespace, optional
sign, then a nonempty run of digits; `none` models the `ValueError` raised
otherwise. (Underscore digit separators and non-ASCII digits, which CPython
also accepts, are not modelled; no claim depends on them.) -/
def pyInt (s : String) : Option Int :=
  match trimChars s.toList with
  | [] => none
  | c :: rest =>
    if c = '-' then
      if !rest.isEmpty && rest.all Char.isDigit then some (-(digitsVal rest : Int)) else none
    else if c = '+' then
      if !rest.isEmpty && rest.all Char.isDigit then some ((digitsVal rest : Int)) else none
    else if (c :: rest).all Char.isDigit then some ((digitsVal (c :: rest) : Int)) else none

/-- `pat` is a leading segment of `s`. -/
def charsHasPre : List Char → List Char → Bool
  | [], _ => true
  | _ :: _, [] => false
  | p :: ps, c :: cs => p == c && charsHasPre ps cs

/-- `pat` occurs contiguously somewhere in `s`. -/
def charsContains : List Char → List Char → Bool
  | [], pat => charsHasPre pat []
  | c :: cs, pat => charsHasPre pat (c :: cs) || charsContains cs pat

/-- Substring occurrence on strings (Python `pat in hay`). -/
def strContains (hay pat : String) : Bool :=
  charsContains hay.toList pat.toList

/-- The Python exceptions the webhook handler can encounter. -/
inductive PyError where
  /-- `int()` on a string that is not an integer literal. -/
  | valueError (lit : String)
  /-- `.get` on a parsed body that is not a dict; carries the type name. -/
  | attributeError (tyName : String)
  /-- `request.json` raised (Flask wraps the parse failure); carries `str(e)`. -/
  | jsonError (msg : String)
  /-- `request.data.decode('utf-8')` raised on bytes that are not UTF-8. -/
  | unicodeDecodeError
  deriving DecidableEq

/-- Python `str(e)` of a handler exception, as printed by the catch-all
(`repr` quoting simplified to bare quotes, `\x27`). -/
def PyError.message : PyError → String
  | PyError.valueError lit => "invalid literal for int() with base 10: \x27" ++ lit ++ "\x27"
  | PyError.attributeError tyName => "\x27" ++ tyName ++ "\x27 object has no attribute \x27get\x27"
  | PyError.jsonError msg => msg
  | PyError.unicodeDecodeError => "\x27utf-8\x27 codec can\x27t decode byte"

/-- `hmac.compare_digest` on ASCII strings: constant-time equality whose value
is plain string equality (timing behaviour is outside the embedding). -/
def compare_digest (a b : String) : Bool :=
  a == b

/-- `verify_webhook_signature(payload, signature, timestamp)` from
receiver-python.py. `hmacHex key msg` stands for the external
`hmac.new(key.encode(), msg.encode(), sha256).hexdigest()`; `now` is the
injected `int(time.time())`; `secret` is the module-level `WEBHOOK_SECRET`.
Returns the printed lines and either the boolean result or the exception the
call raises (`int(timestamp)` raises `ValueError` on an unparsable string). -/
def verify_webhook_signature (hmacHex : String → String → String) (secret : String)
    (now : Int) (payload signature timestamp : String) :
    List String × Except PyError Bool :=
  match pyInt timestamp with
  | none => ([], Except.error (PyError.valueError timestamp))
  | some ts =>
    if 300 < (now - ts).natAbs then
      (["⚠️  Request timestamp too old"], Except.ok false)
    else
      ([],
       Except.ok (compare_digest
         ("v1=" ++ hmacHex secret (timestamp ++ "." ++ payload)) signature))

/-- The data the `webhook` view extracts from an incoming Flask request.
`bodyUtf8` is the result of `request.data.decode('utf-8')` (error =
`UnicodeDecodeError`); `jsonBody` is the result of `request.json` (error =
`str()` of the exception the parse raises). Both are external library calls on
the same raw bytes. -/
structure InboundRequest where
  signature : Option String
  timestamp : Option String
  webhookId : Option String
  bodyUtf8 : Except Unit String
  jsonBody : Except String Json

/-- Python truthiness test `not h` on an optional header string: true for a
missing header and for an empty value. -/
def headerFalsy : Option String → Bool
  | none => true
  | some s => s == ""

/-- A Flask response body: a plain text return or a `jsonify(...)` value. -/
inductive RespBody where
  | text (s : String)
  | jsonOf (j : Json)

/-- What the `webhook` view does with a request: return a response, or let an
exception escape the view (Flask then produces a 500, not a handler
response). -/
inductive HandlerOutcome where
  | respond (body : RespBody) (status : Nat)
  | uncaught (e : PyError)

/-- The HTTP status of a handler outcome, if the handler returned one. -/
def HandlerOutcome.respStatus : HandlerOutcome → Option Nat
  | HandlerOutcome.respond _ s => some s
  | HandlerOutcome.uncaught _ => none

/-- The horizontal-rule line printed by the receiver. -/
def hr : String := "━━━━━━━━━━━━━━━━━━━━━━━━━━━━━━━━━━━━━━━"

/-- The three banner lines printed after the header check and body decode. -/
def receivedBanner : List String :=
  ["\n" ++ hr, "📨 Webhook received", hr]

/-- Log lines of the `webhook.verification` (Stripe-style) branch. -/
def stripeLogs (fields : List (String × Json)) : List String :=
  ["🔍 Webhook verification request (Stripe-style)",
   "   Token: " ++ pyStrOpt (dictGet fields "verification_token"),
   "✅ Responding with 200 OK\n"]

/-- Log lines of the `url_verification` (Slack-style) branch. -/
def slackLogs (fields : List (String × Json)) : List String :=
  ["🔍 URL verification request (Slack-style)",
   "   Challenge: " ++ pyStrOpt (dictGet fields "challenge"),
   "✅ Responding with challenge\n"]

/-- Log lines of the accepted-event branch. -/
def okLogs (fields : List (String × Json)) (webhookId : Option String) : List String :=
  ["✅ Signature verified", "📋 Event details:",
   "   ID: " ++ pyStrOpt (dictGet fields "id"),
   "   Type: " ++ pyStrOpt (dictGet fields "type"),
   "   Webhook ID: " ++ pyOptStr webhookId,
   "\n📦 Event data:",
   pyStrOpt (dictGet fields "data"),
   "\n✅ Webhook processed successfully\n"]

/-- The `try:` block of the `webhook` view: parse the body, branch on the two
handshake types, otherwise verify the signature. Returns the log lines printed
inside the block and either the `(body, status)` return or the exception that
reaches the `except` clause. -/
def webhookTry (hmacHex : String → String → String) (secret : String) (now : Int)
    (req : InboundRequest) (payload : String) :
    List String × Except PyError (RespBody × Nat) :=
  match req.jsonBody with
  | Except.error msg => ([], Except.error (PyError.jsonError msg))
  | Except.ok event =>
    match event with
    | Json.obj fields =>
      if optJsonEqStr (dictGet fields "type") "webhook.verification" then
        (stripeLogs fields, Except.ok (RespBody.text "OK", 200))
      else if optJsonEqStr (dictGet fields "type") "url_verification" then
        (slackLogs fields,
         Except.ok (RespBody.jsonOf
           (Json.obj [("challenge", optToJson (dictGet fields "challenge"))]), 200))
      else
        match verify_webhook_signature hmacHex secret now payload
            (req.signature.getD "") (req.timestamp.getD "") with
        | (vlogs, Except.error e) => (vlogs, Except.error e)
        | (vlogs, Except.ok false) =>
            (vlogs ++ ["❌ Invalid signature!"],
             Except.ok (RespBody.text "Invalid signature", 401))
        | (vlogs, Except.ok true) =>
            (vlogs ++ okLogs fields req.webhookId,
             Except.ok (RespBody.text "OK", 200))
    | other => ([], Except.error (PyError.attributeError (pyTypeName other)))

/-- The `webhook` view of receiver-python.py: header-presence gate, UTF-8 body
decode (outside the `try:`, so its failure escapes the view), banner prints,
then the `try:` body with the catch-all mapping any exception to
`('Invalid payload', 400)`. Returns the outcome and all printed lines. -/
def webhook (hmacHex : String → String → String) (secret : String) (now : Int)
    (req : InboundRequest) : HandlerOutcome × List String :=
  if headerFalsy req.signature || headerFalsy req.timestamp then
    (HandlerOutcome.respond (RespBody.text "Missing signature headers") 401, [])
  else
    match req.bodyUtf8 with
    | Except.error _ => (HandlerOutcome.uncaught PyError.unicodeDecodeError, [])
    | Except.ok payload =>
      match webhookTry hmacHex secret now req payload with
      | (logs, Except.ok (body, status)) =>
          (HandlerOutcome.respond body status, receivedBanner ++ logs)
      | (logs, Except.error e) =>
          (HandlerOutcome.respond (RespBody.text "Invalid payload") 400,
           receivedBanner ++ logs ++ ["❌ Error processing webhook: " ++ e.message])

/-- The placeholder default of the `WEBHOOK_SECRET` environment variable. -/
def secretPlaceholder : String := "whsec_your_secret_here"

/-- The startup check `WEBHOOK_SECRET != 'whsec_your_secret_here'`. -/
def secretConfigured (secret : String) : Bool :=
  secret != secretPlaceholder

/-- Python `str` of a bool, as printed by the startup f-string. -/
def pyBoolStr : Bool → String
  | true => "True"
  | false => "False"

/-- The lines printed by the `__main__` startup block (the subsequent
`app.run` is transport plumbing outside the model). -/
def startupLines (secret : String) : List String :=
  ["\n" ++ hr, "🎯 Python Webhook Receiver", hr,
   "✅ Server running on http://localhost:5000",
   "⚙️  Secret configured: " ++ pyBoolStr (secretConfigured secret),
   hr ++ "\n", "Waiting for webhooks...\n"]

/-- The payload string the standard-event branch passes to the verifier
(defined for any request; equals `p` whenever `bodyUtf8 = Except.ok p`). -/
def InboundRequest.payloadStr (req : InboundRequest) : String :=
  match req.bodyUtf8 with
  | Except.ok p => p
  | Except.error _ => ""

theorem verify_stale_eq (hmacHex : String → String → String) (secret : String)
    (now ts : Int) (payload sig tsStr : String)
    (hparse : pyInt tsStr = some ts) (hstale : 300 < (now - ts).natAbs) :
    verify_webhook_signature hmacHex secret now payload sig tsStr
      = (["⚠️  Request timestamp too old"], Except.ok false) := by
  unfold verify_webhook_signature
  rw [hparse]
  simp [hstale]

theorem verify_fresh_eq (hmacHex : String → String → String) (secret : String)
    (now ts : Int) (payload sig tsStr : String)
    (hparse : pyInt tsStr = some ts) (hfresh : (now - ts).natAbs ≤ 300) :
    verify_webhook_signature hmacHex secret now payload sig tsStr
      = ([], Except.ok (("v1=" ++ hmacHex secret (tsStr ++ "." ++ payload)) == sig)) := by
  unfold verify_webhook_signature
  rw [hparse]
  simp [compare_digest, Nat.not_lt.mpr hfresh]

theorem verify_badts_eq (hmacHex : String → String → String) (secret : String)
    (now : Int) (payload sig tsStr : String)
    (hparse : pyInt tsStr = none) :
    verify_webhook_signature hmacHex secret now payload sig tsStr
      = ([], Except.error (PyError.valueError tsStr)) := by
  unfold verify_webhook_signature
  rw [hparse]

theorem webhook_gate_401 (hmacHex : String → String → String) (secret : String)
    (now : Int) (req : InboundRequest)
    (hgate : (headerFalsy req.signature || headerFalsy req.timestamp) = true) :
    webhook hmacHex secret now req
      = (HandlerOutcome.respond (RespBody.text "Missing signature headers") 401, []) := by
  unfold webhook
  rw [hgate]
  simp

theorem webhook_handshakeA_eq (hmacHex : String → String → String) (secret : String)
    (now : Int) (sig tsStr : String) (wid : Option String) (body : String)
    (fields : List (String × Json))
    (hsig : sig ≠ "") (hts : tsStr ≠ "")
    (hty : dictGet fields "type" = some (Json.str "webhook.verification")) :
    webhook hmacHex secret now
        ⟨some sig, some tsStr, wid, Except.ok body, Except.ok (Json.obj fields)⟩
      = (HandlerOutcome.respond (RespBody.text "OK") 200,
         receivedBanner ++ stripeLogs fields) := by
  unfold webhook webhookTry
  simp [headerFalsy, hsig, hts, hty, optJsonEqStr]

theorem webhook_handshakeB_eq (hmacHex : String → String → String) (secret : String)
    (now : Int) (sig tsStr : String) (wid : Option String) (body : String)
    (fields : List (String × Json))
    (hsig : sig ≠ "") (hts : tsStr ≠ "")
    (hty : dictGet fields "type" = some (Json.str "url_verification")) :
    webhook hmacHex secret now
        ⟨some sig, some tsStr, wid, Except.ok body, Except.ok (Json.obj fields)⟩
      = (HandlerOutcome.respond (RespBody.jsonOf
           (Json.obj [("challenge", optToJson (dictGet fields "challenge"))])) 200,
         receivedBanner ++ slackLogs fields) := by
  unfold webhook webhookTry
  simp [headerFalsy, hsig, hts, hty, optJsonEqStr]

theorem webhook_standard_invalid (hmacHex : String → String → String) (secret : String)
    (now : Int) (sig tsStr : String) (wid : Option String) (body : String)
    (fields : List (String × Json)) (vlogs : List String)
    (hsig : sig ≠ "") (hts : tsStr ≠ "")
    (hty1 : optJsonEqStr (dictGet fields "type") "webhook.verification" = false)
    (hty2 : optJsonEqStr (dictGet fields "type") "url_verification" = false)
    (hv : verify_webhook_signature hmacHex secret now body sig tsStr
            = (vlogs, Except.ok false)) :
    webhook hmacHex secret now
        ⟨some sig, some tsStr, wid, Except.ok body, Except.ok (Json.obj fields)⟩
      = (HandlerOutcome.respond (RespBody.text "Invalid signature") 401,
         receivedBanner ++ (vlogs ++ ["❌ Invalid signature!"])) := by
  unfold webhook webhookTry
  simp only [headerFalsy, hty1, hty2, Option.getD]
  rw [hv]
  simp [hsig, hts]

theorem webhook_standard_valid (hmacHex : String → String → String) (secret : String)
    (now : Int) (sig tsStr : String) (wid : Option String) (body : String)
    (fields : List (String × Json)) (vlogs : List String)
    (hsig : sig ≠ "") (hts : tsStr ≠ "")
    (hty1 : optJsonEqStr (dictGet fields "type") "webhook.verification" = false)
    (hty2 : optJsonEqStr (dictGet fields "type") "url_verification" = false)
    (hv : verify_webhook_signature hmacHex secret now body sig tsStr
            = (vlogs, Except.ok true)) :
    webhook hmacHex secret now
        ⟨some sig, some tsStr, wid, Except.ok body, Except.ok (Json.obj fields)⟩
      = (HandlerOutcome.respond (RespBody.text "OK") 200,
         receivedBanner ++ (vlogs ++ okLogs fields wid)) := by
  unfold webhook webhookTry
  simp only [headerFalsy, hty1, hty2, Option.getD]
  rw [hv]
  simp [hsig, hts]

theorem webhook_standard_raise (hmacHex : String → String → String) (secret : String)
    (now : Int) (sig tsStr : String) (wid : Option String) (body : String)
    (fields : List (String × Json)) (vlogs : List String) (e : PyError)
    (hsig : sig ≠ "") (hts : tsStr ≠ "")
    (hty1 : optJsonEqStr (dictGet fields "type") "webhook.verification" = false)
    (hty2 : optJsonEqStr (dictGet fields "type") "url_verification" = false)
    (hv : verify_webhook_signature hmacHex secret now body sig tsStr
            = (vlogs, Except.error e)) :
    webhook hmacHex secret now
        ⟨some sig, some tsStr, wid, Except.ok body, Except.ok (Json.obj fields)⟩
      = (HandlerOutcome.respond (RespBody.text "Invalid payload") 400,
         receivedBanner ++ vlogs ++ ["❌ Error processing webhook: " ++ e.message]) := by
  unfold webhook webhookTry
  simp only [headerFalsy, hty1, hty2, Option.getD]
  rw [hv]
  simp [hsig, hts]

theorem webhook_jsonfail_eq (hmacHex : String → String → String) (secret : String)
    (now : Int) (sig tsStr : String) (wid : Option String) (body msg : String)
    (hsig : sig ≠ "") (hts : tsStr ≠ "") :
    webhook hmacHex secret now
        ⟨some sig, some tsStr, wid, Except.ok body, Except.error msg⟩
      = (HandlerOutcome.respond (RespBody.text "Invalid payload") 400,
         receivedBanner ++ ["❌ Error processing webhook: " ++ msg]) := by
  unfold webhook webhookTry
  simp [headerFalsy, hsig, hts, PyError.message]

theorem webhook_nonobj_eq (hmacHex : String → String → String) (secret : String)
    (now : Int) (sig tsStr : String) (wid : Option String) (body : String)
    (j : Json) (hsig : sig ≠ "") (hts : tsStr ≠ "") (hobj : j.isObj = false) :
    webhook hmacHex secret now
        ⟨some sig, some tsStr, wid, Except.ok body, Except.ok j⟩
      = (HandlerOutcome.respond (RespBody.text "Invalid payload") 400,
         receivedBanner
           ++ ["❌ Error processing webhook: "
                ++ PyError.message (PyError.attributeError (pyTypeName j))]) := by
  unfold webhook webhookTry
  cases j with
  | obj fields => simp [Json.isObj] at hobj
  | null => simp [headerFalsy, hsig, hts]
  | bool b => simp [headerFalsy, hsig, hts]
  | num n => simp [headerFalsy, hsig, hts]
  | str s => simp [headerFalsy, hsig, hts]
  | arr xs => simp [headerFalsy, hsig, hts]

/-- A concrete stand-in for the external hex-digest function, used to
instantiate theorems at concrete inputs. -/
def hmacFix : String → String → String :=
  fun _ _ => "0000000000000000000000000000000000000000000000000000000000000000"

/-- A second concrete digest function, different from `hmacFix`, used to
exhibit independence from the digest function. -/
def hmacAlt : String → String → String :=
  fun _ _ => "ffffffffffffffffffffffffffffffffffffffffffffffffffffffffffffffff"

/-- The handshake-A request of claim C1, sent without signature headers. -/
def reqC1A : InboundRequest :=
  ⟨none, none, none,
   Except.ok "\x7b\"type\": \"webhook.verification\", \"verification_token\": \"tok_123\"\x7d",
   Except.ok (Json.obj [("type", Json.str "webhook.verification"),
                        ("verification_token", Json.str "tok_123")])⟩

/-- The same handshake-A request with both signature headers present. -/
def reqC1B : InboundRequest :=
  ⟨some "v1=abc", some "1000", none,
   Except.ok "\x7b\"type\": \"webhook.verification\", \"verification_token\": \"tok_123\"\x7d",
   Except.ok (Json.obj [("type", Json.str "webhook.verification"),
                        ("verification_token", Json.str "tok_123")])⟩

/-- C1 (counterexample): the claim fails on the code twice over. The handshake
request with `type = "webhook.verification"`, `verification_token = "tok_123"`
and no signature headers is answered `401 "Missing signature headers"` (the
header gate runs before body parsing), not `200`; and even with both headers
present the `200` response body is `"OK"`, which does not contain `"tok_123"`. -/
theorem claimC1_counterexample :
    (webhook hmacFix "s3cr3t" 1000 reqC1A).1
        = HandlerOutcome.respond (RespBody.text "Missing signature headers") 401
    ∧ (webhook hmacFix "s3cr3t" 1000 reqC1A).1.respStatus ≠ some 200
    ∧ (webhook hmacFix "s3cr3t" 1000 reqC1B).1
        = HandlerOutcome.respond (RespBody.text "OK") 200
    ∧ strContains "OK" "tok_123" = false :=
  ⟨rfl, by decide, rfl, by decide⟩

/-- C1 (amended): a request whose parsed body has `type = "webhook.verification"`
and whose two signature headers are present and non-empty is answered `200`
with body `"OK"` (not the echoed token), without invoking the Verifier: the
entire outcome, logs included, is independent of the digest function, the
secret and the clock. A request without the headers is answered `401` before
the body is parsed. -/
theorem claimC1 (hmacHex hmacHex' : String → String → String)
    (secret secret' : String) (now now' : Int)
    (sig tsStr : String) (wid : Option String) (body : String)
    (fields : List (String × Json))
    (hsig : sig ≠ "") (hts : tsStr ≠ "")
    (hty : dictGet fields "type" = some (Json.str "webhook.verification")) :
    (webhook hmacHex secret now
        ⟨some sig, some tsStr, wid, Except.ok body, Except.ok (Json.obj fields)⟩).1
      = HandlerOutcome.respond (RespBody.text "OK") 200
    ∧ webhook hmacHex secret now
        ⟨some sig, some tsStr, wid, Except.ok body, Except.ok (Json.obj fields)⟩
      = webhook hmacHex' secret' now'
        ⟨some sig, some tsStr, wid, Except.ok body, Except.ok (Json.obj fields)⟩ := by
  constructor
  · rw [webhook_handshakeA_eq hmacHex secret now sig tsStr wid body fields hsig hts hty]
  · rw [webhook_handshakeA_eq hmacHex secret now sig tsStr wid body fields hsig hts hty,
        webhook_handshakeA_eq hmacHex' secret' now' sig tsStr wid body fields hsig hts hty]

/-- C1 (witness): the amended claim evaluated at a concrete handshake request,
with two different digest functions, secrets and clocks. -/
theorem claimC1_witness :
    (webhook hmacFix "s3cr3t" 1000
        ⟨some "v1=abc", some "1000", none, Except.ok "x",
         Except.ok (Json.obj [("type", Json.str "webhook.verification"),
                              ("verification_token", Json.str "tok_123")])⟩).1
      = HandlerOutcome.respond (RespBody.text "OK") 200
    ∧ webhook hmacFix "s3cr3t" 1000
        ⟨some "v1=abc", some "1000", none, Except.ok "x",
         Except.ok (Json.obj [("type", Json.str "webhook.verification"),
                              ("verification_token", Json.str "tok_123")])⟩
      = webhook hmacAlt "other" 9999
        ⟨some "v1=abc", some "1000", none, Except.ok "x",
         Except.ok (Json.obj [("type", Json.str "webhook.verification"),
                              ("verification_token", Json.str "tok_123")])⟩ :=
  claimC1 hmacFix hmacAlt "s3cr3t" "other" 1000 9999 "v1=abc" "1000" none "x"
    [("type", Json.str "webhook.verification"),
     ("verification_token", Json.str "tok_123")]
    (by decide) (by decide) rfl

/-- C2 (confirmed): a request whose timestamp header parses to `ts` with
`|now - ts| > 300` (e.g. a gap of 400) is rejected by the verifier with the
stale-timestamp diagnostic, for every digest function, secret, payload and
signature — in particular also for a correctly signed request. The result is
the same for all `hmacHex`, so the digest is never consulted on this path. -/
theorem claimC2 (hmacHex : String → String → String) (secret : String)
    (now ts : Int) (payload sig tsStr : String)
    (hparse : pyInt tsStr = some ts) (hstale : 300 < (now - ts).natAbs) :
    verify_webhook_signature hmacHex secret now payload sig tsStr
      = (["⚠️  Request timestamp too old"], Except.ok false) :=
  verify_stale_eq hmacHex secret now ts payload sig tsStr hparse hstale

/-- C2 (witness): a request timestamped 400 seconds in the past is rejected. -/
theorem claimC2_witness :
    verify_webhook_signature hmacFix "s3cr3t" 1400 "body" "v1=sig" "1000"
      = (["⚠️  Request timestamp too old"], Except.ok false) :=
  claimC2 hmacFix "s3cr3t" 1400 1000 "body" "v1=sig" "1000" rfl (by decide)

/-- C3 (confirmed): for a fresh request the verifier computes
`"v1=" ++ hmacHex secret (timestampHeader ++ "." ++ payload)` — the exact
timestamp header string and the exact payload joined by `"."` — and succeeds
exactly when this expected string equals the supplied signature header.
(`payload` is the UTF-8 decoding of the raw body; re-encoding it inside the
source reproduces the raw body bytes, so the string-level model is exact.) -/
theorem claimC3 (hmacHex : String → String → String) (secret : String)
    (now ts : Int) (payload sig tsStr : String)
    (hparse : pyInt tsStr = some ts) (hfresh : (now - ts).natAbs ≤ 300) :
    verify_webhook_signature hmacHex secret now payload sig tsStr
      = ([], Except.ok (("v1=" ++ hmacHex secret (tsStr ++ "." ++ payload)) == sig))
    ∧ ((verify_webhook_signature hmacHex secret now payload sig tsStr).2
          = Except.ok true
        ↔ "v1=" ++ hmacHex secret (tsStr ++ "." ++ payload) = sig) := by
  have h := verify_fresh_eq hmacHex secret now ts payload sig tsStr hparse hfresh
  refine ⟨h, ?_⟩
  rw [h]
  simp

/-- C3 (witness): at a concrete fresh request whose signature header is the
expected string, verification succeeds, and the iff holds. -/
theorem claimC3_witness :
    verify_webhook_signature hmacFix "s3cr3t" 1000 "payload"
        ("v1=" ++ hmacFix "s3cr3t" ("1000" ++ "." ++ "payload")) "1000"
      = ([], Except.ok (("v1=" ++ hmacFix "s3cr3t" ("1000" ++ "." ++ "payload"))
            == ("v1=" ++ hmacFix "s3cr3t" ("1000" ++ "." ++ "payload"))))
    ∧ ((verify_webhook_signature hmacFix "s3cr3t" 1000 "payload"
            ("v1=" ++ hmacFix "s3cr3t" ("1000" ++ "." ++ "payload")) "1000").2
          = Except.ok true
        ↔ "v1=" ++ hmacFix "s3cr3t" ("1000" ++ "." ++ "payload")
            = "v1=" ++ hmacFix "s3cr3t" ("1000" ++ "." ++ "payload")) :=
  claimC3 hmacFix "s3cr3t" 1000 1000 "payload"
    ("v1=" ++ hmacFix "s3cr3t" ("1000" ++ "." ++ "payload")) "1000" rfl (by decide)

/-- C4 (counterexample): with the present-but-unparsable timestamp header
`"abc"`, the verifier does not return a classified outcome at all: `int()`
raises `ValueError` (the code has no `MalformedHeaders` value; its verifier
returns a plain boolean or raises). -/
theorem claimC4_counterexample :
    verify_webhook_signature hmacFix "s3cr3t" 1000 "body" "v1=sig" "abc"
      = ([], Except.error (PyError.valueError "abc"))
    ∧ (verify_webhook_signature hmacFix "s3cr3t" 1000 "body" "v1=sig" "abc").2.isOk
        = false :=
  ⟨rfl, rfl⟩

/-- C4 (amended): a present timestamp header that fails integer parsing makes
the verifier raise `ValueError` rather than return a classified outcome; the
handler's catch-all then classifies the request as `400 "Invalid payload"`
(the malformed-payload response), not as a header error. So the verifier alone
can raise on attacker-controlled input, and it is the enclosing handler that
never lets a fault escape its `try:` block. -/
theorem claimC4 (hmacHex : String → String → String) (secret : String) (now : Int)
    (sig tsStr : String) (wid : Option String) (body : String)
    (fields : List (String × Json))
    (hsig : sig ≠ "") (hts : tsStr ≠ "")
    (hparse : pyInt tsStr = none)
    (hty1 : optJsonEqStr (dictGet fields "type") "webhook.verification" = false)
    (hty2 : optJsonEqStr (dictGet fields "type") "url_verification" = false) :
    verify_webhook_signature hmacHex secret now body sig tsStr
      = ([], Except.error (PyError.valueError tsStr))
    ∧ (webhook hmacHex secret now
        ⟨some sig, some tsStr, wid, Except.ok body, Except.ok (Json.obj fields)⟩).1
      = HandlerOutcome.respond (RespBody.text "Invalid payload") 400 := by
  have hv := verify_badts_eq hmacHex secret now body sig tsStr hparse
  refine ⟨hv, ?_⟩
  rw [webhook_standard_raise hmacHex secret now sig tsStr wid body fields []
        (PyError.valueError tsStr) hsig hts hty1 hty2 hv]

/-- C4 (witness): the amended claim at a standard event with timestamp header
`"abc"`. -/
theorem claimC4_witness :
    verify_webhook_signature hmacFix "s3cr3t" 1000 "x" "v1=abc" "abc"
      = ([], Except.error (PyError.valueError "abc"))
    ∧ (webhook hmacFix "s3cr3t" 1000
        ⟨some "v1=abc", some "abc", none, Except.ok "x",
         Except.ok (Json.obj [("type", Json.str "payment.succeeded")])⟩).1
      = HandlerOutcome.respond (RespBody.text "Invalid payload") 400 :=
  claimC4 hmacFix "s3cr3t" 1000 "v1=abc" "abc" none "x"
    [("type", Json.str "payment.succeeded")]
    (by decide) (by decide) rfl rfl rfl

/-- C5 (confirmed): determinism — two invocations of the verifier with
identical payload, signature header, timestamp header, secret, digest function
and injected current time yield the identical outcome. In the embedding the
verifier is a pure function of exactly these inputs (the source's ambient
`int(time.time())` is the injected `now`). -/
theorem claimC5 (h1 h2 : String → String → String) (s1 s2 : String)
    (n1 n2 : Int) (p1 p2 g1 g2 t1 t2 : String)
    (hh : h1 = h2) (hs : s1 = s2) (hn : n1 = n2)
    (hp : p1 = p2) (hg : g1 = g2) (ht : t1 = t2) :
    verify_webhook_signature h1 s1 n1 p1 g1 t1
      = verify_webhook_signature h2 s2 n2 p2 g2 t2 := by
  rw [hh, hs, hn, hp, hg, ht]

/-- C5 (witness): determinism at a concrete input. -/
theorem claimC5_witness :
    verify_webhook_signature hmacFix "s3cr3t" 1000 "p" "v1=x" "1000"
      = verify_webhook_signature hmacFix "s3cr3t" 1000 "p" "v1=x" "1000" :=
  claimC5 hmacFix hmacFix "s3cr3t" "s3cr3t" 1000 1000 "p" "p" "v1=x" "v1=x"
    "1000" "1000" rfl rfl rfl rfl rfl rfl

/-- A request whose body bytes are not valid UTF-8, with both signature
headers present (the signature value plays no role: the request fails before
any verification). -/
def reqC6 : InboundRequest :=
  ⟨some "v1=deadbeef", some "1000", none, Except.error (), Except.error "unreachable"⟩

/-- C6 (counterexample): a body that is not valid UTF-8 is "not decodable as a
keyed structured document", yet the handler does not respond `400`: the
`request.data.decode('utf-8')` on line 59 sits before the `try:` block, so the
`UnicodeDecodeError` escapes the view (Flask turns it into a 500, not a
handler response). -/
theorem claimC6_counterexample :
    (webhook hmacFix "s3cr3t" 1000 reqC6).1
        = HandlerOutcome.uncaught PyError.unicodeDecodeError
    ∧ (webhook hmacFix "s3cr3t" 1000 reqC6).1.respStatus ≠ some 400 :=
  ⟨rfl, by decide⟩

/-- C6 (amended): for a request with both signature headers present and
non-empty whose body decodes as UTF-8 but is not a keyed structured document —
either `request.json` raises, or it parses to something that is not a dict —
the handler responds `400 "Invalid payload"`, not `401`; the signature is
never checked on this path. A body that is not valid UTF-8 instead escapes the
handler as an uncaught `UnicodeDecodeError` (the decode precedes the `try:`). -/
theorem claimC6 (hmacHex : String → String → String) (secret : String) (now : Int)
    (sig tsStr : String) (wid : Option String) (body : String)
    (jsonB : Except String Json)
    (hsig : sig ≠ "") (hts : tsStr ≠ "")
    (hbad : (∃ msg, jsonB = Except.error msg)
            ∨ (∃ j, jsonB = Except.ok j ∧ j.isObj = false)) :
    (webhook hmacHex secret now
        ⟨some sig, some tsStr, wid, Except.ok body, jsonB⟩).1
      = HandlerOutcome.respond (RespBody.text "Invalid payload") 400 := by
  rcases hbad with ⟨msg, rfl⟩ | ⟨j, rfl, hobj⟩
  · rw [webhook_jsonfail_eq hmacHex secret now sig tsStr wid body msg hsig hts]
  · rw [webhook_nonobj_eq hmacHex secret now sig tsStr wid body j hsig hts hobj]

/-- C6 (witness): a correctly-headed request whose body `"not json"` fails to
parse is answered `400`. -/
theorem claimC6_witness :
    (webhook hmacFix "s3cr3t" 1000
        ⟨some "v1=deadbeef", some "1000", none, Except.ok "not json",
         Except.error "Expecting value: line 1 column 1 (char 0)"⟩).1
      = HandlerOutcome.respond (RespBody.text "Invalid payload") 400 :=
  claimC6 hmacFix "s3cr3t" 1000 "v1=deadbeef" "1000" none "not json"
    (Except.error "Expecting value: line 1 column 1 (char 0)")
    (by decide) (by decide)
    (Or.inl ⟨"Expecting value: line 1 column 1 (char 0)", rfl⟩)

/-- The handshake-B request of claim C7, sent without signature headers. -/
def reqC7 : InboundRequest :=
  ⟨none, none, none,
   Except.ok "\x7b\"type\": \"url_verification\", \"challenge\": \"abc\"\x7d",
   Except.ok (Json.obj [("type", Json.str "url_verification"),
                        ("challenge", Json.str "abc")])⟩

/-- C7 (counterexample): a request whose body has `type = "url_verification"`
and `challenge = "abc"` but which carries no signature headers is answered
`401 "Missing signature headers"` by the header gate, not `200` with the
echoed challenge: the claim's universal quantification over every such request
fails. -/
theorem claimC7_counterexample :
    (webhook hmacFix "s3cr3t" 1000 reqC7).1
        = HandlerOutcome.respond (RespBody.text "Missing signature headers") 401
    ∧ (webhook hmacFix "s3cr3t" 1000 reqC7).1.respStatus ≠ some 200 :=
  ⟨rfl, by decide⟩

/-- C7 (amended): a request whose parsed body has `type = "url_verification"`
and `challenge = "abc"`, and whose two signature headers are present and
non-empty, is answered `200` with body exactly
`jsonify(\x7b"challenge": "abc"\x7d)`, without invoking the Verifier: the
outcome and logs are independent of the digest function, secret and clock. -/
theorem claimC7 (hmacHex hmacHex' : String → String → String)
    (secret secret' : String) (now now' : Int)
    (sig tsStr : String) (wid : Option String) (body : String)
    (fields : List (String × Json))
    (hsig : sig ≠ "") (hts : tsStr ≠ "")
    (hty : dictGet fields "type" = some (Json.str "url_verification"))
    (hch : dictGet fields "challenge" = some (Json.str "abc")) :
    (webhook hmacHex secret now
        ⟨some sig, some tsStr, wid, Except.ok body, Except.ok (Json.obj fields)⟩).1
      = HandlerOutcome.respond
          (RespBody.jsonOf (Json.obj [("challenge", Json.str "abc")])) 200
    ∧ webhook hmacHex secret now
        ⟨some sig, some tsStr, wid, Except.ok body, Except.ok (Json.obj fields)⟩
      = webhook hmacHex' secret' now'
        ⟨some sig, some tsStr, wid, Except.ok body, Except.ok (Json.obj fields)⟩ := by
  constructor
  · rw [webhook_handshakeB_eq hmacHex secret now sig tsStr wid body fields hsig hts hty,
        hch]
    rfl
  · rw [webhook_handshakeB_eq hmacHex secret now sig tsStr wid body fields hsig hts hty,
        webhook_handshakeB_eq hmacHex' secret' now' sig tsStr wid body fields hsig hts hty]

/-- C7 (witness): the amended claim at a concrete challenge request, with two
different digest functions, secrets and clocks. -/
theorem claimC7_witness :
    (webhook hmacFix "s3cr3t" 1000
        ⟨some "v1=abc", some "1000", none, Except.ok "x",
         Except.ok (Json.obj [("type", Json.str "url_verification"),
                              ("challenge", Json.str "abc")])⟩).1
      = HandlerOutcome.respond
          (RespBody.jsonOf (Json.obj [("challenge", Json.str "abc")])) 200
    ∧ webhook hmacFix "s3cr3t" 1000
        ⟨some "v1=abc", some "1000", none, Except.ok "x",
         Except.ok (Json.obj [("type", Json.str "url_verification"),
                              ("challenge", Json.str "abc")])⟩
      = webhook hmacAlt "other" 9999
        ⟨some "v1=abc", some "1000", none, Except.ok "x",
         Except.ok (Json.obj [("type", Json.str "url_verification"),
                              ("challenge", Json.str "abc")])⟩ :=
  claimC7 hmacFix hmacAlt "s3cr3t" "other" 1000 9999 "v1=abc" "1000" none "x"
    [("type", Json.str "url_verification"), ("challenge", Json.str "abc")]
    (by decide) (by decide) rfl rfl

/-- C8 (confirmed): the staleness test is `abs(now - ts) > 300`, so the
boundary is inclusive on the fresh side: a gap of exactly 300 seconds proceeds
to the signature comparison, while a gap of 301 seconds is rejected as stale
for every digest function, secret, payload and signature. -/
theorem claimC8 (hmacHex : String → String → String) (secret : String)
    (now ts : Int) (payload sig tsStr : String)
    (hparse : pyInt tsStr = some ts) :
    ((now - ts).natAbs = 300 →
      verify_webhook_signature hmacHex secret now payload sig tsStr
        = ([], Except.ok (("v1=" ++ hmacHex secret (tsStr ++ "." ++ payload)) == sig)))
    ∧ ((now - ts).natAbs = 301 →
      verify_webhook_signature hmacHex secret now payload sig tsStr
        = (["⚠️  Request timestamp too old"], Except.ok false)) := by
  constructor
  · intro h300
    exact verify_fresh_eq hmacHex secret now ts payload sig tsStr hparse
      (Nat.le_of_eq h300)
  · intro h301
    exact verify_stale_eq hmacHex secret now ts payload sig tsStr hparse
      (by omega)

/-- C8 (witness): both boundary points evaluated concretely — a gap of exactly
300 reaches the comparison, a gap of 301 is rejected. -/
theorem claimC8_witness :
    verify_webhook_signature hmacFix "s3cr3t" 1300 "p" "v1=x" "1000"
      = ([], Except.ok (("v1=" ++ hmacFix "s3cr3t" ("1000" ++ "." ++ "p")) == "v1=x"))
    ∧ verify_webhook_signature hmacFix "s3cr3t" 1301 "p" "v1=x" "1000"
      = (["⚠️  Request timestamp too old"], Except.ok false) :=
  ⟨(claimC8 hmacFix "s3cr3t" 1300 1000 "p" "v1=x" "1000" rfl).1 (by decide),
   (claimC8 hmacFix "s3cr3t" 1301 1000 "p" "v1=x" "1000" rfl).2 (by decide)⟩

theorem webhookTry_congr (hmacHex hmacHex' : String → String → String)
    (secret secret' : String) (now now' : Int)
    (sg ts wid : Option String) (bu : Except Unit String) (jb : Except String Json)
    (payload : String)
    (hv : verify_webhook_signature hmacHex secret now payload (sg.getD "") (ts.getD "")
        = verify_webhook_signature hmacHex' secret' now' payload (sg.getD "") (ts.getD "")) :
    webhookTry hmacHex secret now ⟨sg, ts, wid, bu, jb⟩ payload
      = webhookTry hmacHex' secret' now' ⟨sg, ts, wid, bu, jb⟩ payload := by
  unfold webhookTry
  cases jb with
  | error msg => rfl
  | ok event =>
    cases event with
    | obj fields =>
      by_cases h1 : optJsonEqStr (dictGet fields "type") "webhook.verification" = true
      · simp [h1]
      · by_cases h2 : optJsonEqStr (dictGet fields "type") "url_verification" = true
        · simp [h1, h2]
        · simp only [Bool.not_eq_true] at h1 h2
          simp only [h1, h2, Bool.false_eq_true, if_false]
          rw [hv]
    | null => rfl
    | bool b => rfl
    | num n => rfl
    | str s => rfl
    | arr xs => rfl

/-- C9 (confirmed): the secret (and the digest computed from it) never reaches
an observable. Formally, as a noninterference property: the handler's entire
observable output — response body, status and every log line — depends on the
secret and the digest function only through the verifier's returned outcome,
so no observable can embed the secret or a digest; and the startup banner
depends on the secret only through the boolean comparison against the
placeholder. -/
theorem claimC9 (hmacHex hmacHex' : String → String → String)
    (secret secret' : String) (now now' : Int) (req : InboundRequest)
    (hv : verify_webhook_signature hmacHex secret now req.payloadStr
            (req.signature.getD "") (req.timestamp.getD "")
        = verify_webhook_signature hmacHex' secret' now' req.payloadStr
            (req.signature.getD "") (req.timestamp.getD ""))
    (hcfg : secretConfigured secret = secretConfigured secret') :
    webhook hmacHex secret now req = webhook hmacHex' secret' now' req
    ∧ startupLines secret = startupLines secret' := by
  refine ⟨?_, by simp [startupLines, hcfg]⟩
  obtain ⟨sg, ts, wid, bu, jb⟩ := req
  unfold webhook
  by_cases hgate : (headerFalsy sg || headerFalsy ts) = true
  · simp [hgate]
  · simp only [Bool.not_eq_true] at hgate
    simp only [hgate, Bool.false_eq_true, if_false]
    cases bu with
    | error u => rfl
    | ok payload =>
      dsimp only
      rw [webhookTry_congr hmacHex hmacHex' secret secret' now now' sg ts wid
            (Except.ok payload) jb payload hv]

/-- C9 (witness): two runs over the same request with different secrets,
digest functions and clocks whose verification outcomes coincide produce
identical output, and two differently-provisioned secrets give the same
startup banner. -/
theorem claimC9_witness :
    webhook hmacFix "s3cr3t" 1000
        ⟨some "v1=abc", some "1000", none, Except.ok "x",
         Except.ok (Json.obj [("type", Json.str "payment.succeeded")])⟩
      = webhook hmacFix "other" 1000
        ⟨some "v1=abc", some "1000", none, Except.ok "x",
         Except.ok (Json.obj [("type", Json.str "payment.succeeded")])⟩
    ∧ startupLines "s3cr3t" = startupLines "other" :=
  claimC9 hmacFix hmacFix "s3cr3t" "other" 1000 1000
    ⟨some "v1=abc", some "1000", none, Except.ok "x",
     Except.ok (Json.obj [("type", Json.str "payment.succeeded")])⟩
    rfl rfl

/-- The handshake-A request of claim C10, with both headers present but the
signature header holding the empty string (a present-but-empty value). -/
def reqC10 : InboundRequest :=
  ⟨some "", some "1000", none,
   Except.ok "\x7b\"type\": \"webhook.verification\", \"verification_token\": \"tok_123\"\x7d",
   Except.ok (Json.obj [("type", Json.str "webhook.verification"),
                        ("verification_token", Json.str "tok_123")])⟩

/-- C10 (counterexample): a handshake-typed request whose two signature
headers are present but whose signature value is the empty string is answered
`401 "Missing signature headers"`, not `200`: Python's truthiness test
`not signature` treats a present-but-empty header like a missing one, so
"present with arbitrary values" does not suffice for the handshake `200`. -/
theorem claimC10_counterexample :
    (webhook hmacFix "s3cr3t" 1000 reqC10).1
        = HandlerOutcome.respond (RespBody.text "Missing signature headers") 401
    ∧ (webhook hmacFix "s3cr3t" 1000 reqC10).1.respStatus ≠ some 200 :=
  ⟨rfl, by decide⟩

/-- C10 (amended): the header gate precedes body parsing and classification
for every request, handshakes included — every request whose
`X-Webhook-Signature` or `X-Webhook-Timestamp` header is missing *or empty*
receives `401 "Missing signature headers"` regardless of body content (and
with no log output), and conversely a handshake-typed request whose two
headers are present with arbitrary *non-empty* values — never verified —
receives `200`. -/
theorem claimC10 (hmacHex : String → String → String) (secret : String) (now : Int) :
    (∀ req : InboundRequest,
        (headerFalsy req.signature || headerFalsy req.timestamp) = true →
        webhook hmacHex secret now req
          = (HandlerOutcome.respond (RespBody.text "Missing signature headers") 401, []))
    ∧ (∀ (sig tsStr : String) (wid : Option String) (body : String)
          (fields : List (String × Json)),
        sig ≠ "" → tsStr ≠ "" →
        (dictGet fields "type" = some (Json.str "webhook.verification")
          ∨ dictGet fields "type" = some (Json.str "url_verification")) →
        (webhook hmacHex secret now
            ⟨some sig, some tsStr, wid, Except.ok body,
             Except.ok (Json.obj fields)⟩).1.respStatus
          = some 200) := by
  constructor
  · intro req hgate
    exact webhook_gate_401 hmacHex secret now req hgate
  · rintro sig tsStr wid body fields hsig hts (hty | hty)
    · rw [webhook_handshakeA_eq hmacHex secret now sig tsStr wid body fields hsig hts hty]
      rfl
    · rw [webhook_handshakeB_eq hmacHex secret now sig tsStr wid body fields hsig hts hty]
      rfl

/-- C10 (witness): a standard-typed request missing the signature header gets
`401` despite its body, and a handshake request carrying junk (never-verified)
non-empty header values gets `200`. -/
theorem claimC10_witness :
    webhook hmacFix "s3cr3t" 1000
        ⟨none, some "1000", none, Except.ok "x",
         Except.ok (Json.obj [("type", Json.str "payment.succeeded")])⟩
      = (HandlerOutcome.respond (RespBody.text "Missing signature headers") 401, [])
    ∧ (webhook hmacFix "s3cr3t" 1000
        ⟨some "nonsense", some "junk", none, Except.ok "x",
         Except.ok (Json.obj [("type", Json.str "url_verification")])⟩).1.respStatus
      = some 200 :=
  ⟨(claimC10 hmacFix "s3cr3t" 1000).1
      ⟨none, some "1000", none, Except.ok "x",
       Except.ok (Json.obj [("type", Json.str "payment.succeeded")])⟩ rfl,
   (claimC10 hmacFix "s3cr3t" 1000).2 "nonsense" "junk" none "x"
      [("type", Json.str "url_verification")]
      (by decide) (by decide) (Or.inr rfl)⟩
